import Mathlib

/-!
Verification of the ffmpeg-video-api render server against its
natural-language specification.

The repository is a corpus of near-duplicate Express servers that render
narrated videos with ffmpeg.  The definitions below are shallow embeddings
of the functions the claims refer to, translated from the JavaScript
source.  Machine numbers are modelled as rationals, ffmpeg expression
values as reals where trigonometry is involved, and fallible operations as
Except values.  Each claim of the specification is settled by one theorem
further down in the file.
-/

/-! ## Data model: render plan (section 3 of the spec)

Plans arrive as JSON; string fields that are absent or empty are falsy in
the JavaScript truthiness tests, so optional strings are modelled as
String with the empty string for the absent case. -/

/-- Truthiness of a JavaScript string: every string except the empty one. -/
def truthy (s : String) : Bool := s != ""

/-- One plan segment: a remote recitation clip URL plus the narration text,
with the ayah number used only in file names (part_002 lines 559-568). -/
structure Segment where
  arabicAudioUrl : String
  trText : String
  ayah : Nat
deriving DecidableEq

/-- RenderPlan fields read by processJob (part_002 lines 548-571). -/
structure Plan where
  introText : String
  surahAnnouncementText : String
  useBismillahClip : Bool
  bismillahAudioUrl : String
  outroText : String
  segments : List Segment
deriving DecidableEq

/-- One audio clip of the concat manifest: either a synthesized narration
clip or a downloaded remote clip (the addTtsClip and addMp3UrlClip helpers
of processJob). -/
inductive Clip where
  | tts (text name : String)
  | mp3Url (url name : String)
deriving DecidableEq

/-! ## Segment assembly (processJob of part_002, lines 548-578)

The JavaScript pushes clips onto the wavs array in program order; the
embedding threads the accumulator through the same sequence of guarded
appends.  The segment loop skips a segment unless both its arabicAudioUrl
and its trText are truthy (part_002 line 561). -/

/-- Loop body of processJob over plan.segments (part_002 lines 559-568):
each kept segment pushes its downloaded clip and then its narration clip. -/
def pushSegmentClips : List Segment → List Clip → List Clip
  | [], wavs => wavs
  | s :: rest, wavs =>
    if truthy s.arabicAudioUrl && truthy s.trText then
      pushSegmentClips rest
        (wavs ++ [Clip.mp3Url s.arabicAudioUrl ("ayah" ++ toString s.ayah ++ "_ar"),
                  Clip.tts s.trText ("ayah" ++ toString s.ayah ++ "_tr")])
    else
      pushSegmentClips rest wavs

/-- Clip list written to list.txt by processJob (part_002 lines 548-578):
intro, announcement, optional bismillah clip, the segment loop, outro. -/
def processJobClips (plan : Plan) : List Clip :=
  let wavs : List Clip := []
  let wavs := if truthy plan.introText then wavs ++ [Clip.tts plan.introText "intro"] else wavs
  let wavs := if truthy plan.surahAnnouncementText then wavs ++ [Clip.tts plan.surahAnnouncementText "announce"] else wavs
  let wavs := if plan.useBismillahClip && truthy plan.bismillahAudioUrl then wavs ++ [Clip.mp3Url plan.bismillahAudioUrl "bismillah_ar"] else wavs
  let wavs := pushSegmentClips plan.segments wavs
  if truthy plan.outroText then wavs ++ [Clip.tts plan.outroText "outro"] else wavs

/-- Declarative pair for one segment under the filter the code applies:
a segment contributes its pair exactly when both fields are truthy. -/
def segmentPairAmended (s : Segment) : List Clip :=
  if truthy s.arabicAudioUrl && truthy s.trText then
    [Clip.mp3Url s.arabicAudioUrl ("ayah" ++ toString s.ayah ++ "_ar"),
     Clip.tts s.trText ("ayah" ++ toString s.ayah ++ "_tr")]
  else []

/-- Declarative manifest with the filter the code applies (refinement
target for the amended claim C1). -/
def manifestAmended (plan : Plan) : List Clip :=
  (if truthy plan.introText then [Clip.tts plan.introText "intro"] else []) ++
  (if truthy plan.surahAnnouncementText then [Clip.tts plan.surahAnnouncementText "announce"] else []) ++
  (if plan.useBismillahClip && truthy plan.bismillahAudioUrl then [Clip.mp3Url plan.bismillahAudioUrl "bismillah_ar"] else []) ++
  (plan.segments.map segmentPairAmended).flatten ++
  (if truthy plan.outroText then [Clip.tts plan.outroText "outro"] else [])

/-- Pair for one segment following the words of claim C1: only a segment
lacking its external-audio URL is omitted; the narration text plays no
role in the filter. -/
def segmentPairClaim (s : Segment) : List Clip :=
  if truthy s.arabicAudioUrl then
    [Clip.mp3Url s.arabicAudioUrl ("ayah" ++ toString s.ayah ++ "_ar"),
     Clip.tts s.trText ("ayah" ++ toString s.ayah ++ "_tr")]
  else []

/-- Manifest following the words of claim C1, to be compared with the
manifest the code assembles. -/
def manifestClaim (plan : Plan) : List Clip :=
  (if truthy plan.introText then [Clip.tts plan.introText "intro"] else []) ++
  (if truthy plan.surahAnnouncementText then [Clip.tts plan.surahAnnouncementText "announce"] else []) ++
  (if plan.useBismillahClip && truthy plan.bismillahAudioUrl then [Clip.mp3Url plan.bismillahAudioUrl "bismillah_ar"] else []) ++
  (plan.segments.map segmentPairClaim).flatten ++
  (if truthy plan.outroText then [Clip.tts plan.outroText "outro"] else [])

/-- Concrete plan whose only segment has a URL but empty narration text:
the code drops the whole pair, the claim keeps it. -/
def planC1 : Plan :=
  { introText := ""
    surahAnnouncementText := ""
    useBismillahClip := false
    bismillahAudioUrl := ""
    outroText := ""
    segments := [{ arabicAudioUrl := "https://cdn.example/ayah1.mp3", trText := "", ayah := 1 }] }

/-! ## Job records and lifecycle (claims C2, C5, C8, C9)

Two record shapes occur in the corpus: the third server.js variant stores
status, output, error and createdAt (server.js line 1196); the second
variant and part_002 store status, outputPath, error and stage. -/

/-- Job status values of the job registry. -/
inductive JStatus where
  | processing
  | done
  | error
deriving DecidableEq

/-- Job record of the third server.js variant (server.js line 1196). -/
structure Job3 where
  status : JStatus
  output : Option String
  error : Option String
  createdAt : Nat
deriving DecidableEq

/-- Fresh job record as inserted by the start handler
(server.js line 1196): processing, no output, no error. -/
def newJob3 (t : Nat) : Job3 :=
  { status := JStatus.processing, output := none, error := none, createdAt := t }

/-- Lazy timeout applied by the status route (server.js lines 1212-1215):
a processing job older than MAX_JOB_MS is switched to error with the
message timeout; every other job is left untouched. -/
def statusTimeout (M now : Nat) (j : Job3) : Job3 :=
  if j.status = JStatus.processing ∧ M < now - j.createdAt then
    { j with status := JStatus.error, error := some "timeout" }
  else j

/-- Tail of runRender10MinJob (server.js lines 1164-1170): on success the
job becomes done with its output path and a cleared error; on any thrown
error it becomes error with the message, output untouched. -/
def finishJob3 (result : Except String String) (j : Job3) : Job3 :=
  match result with
  | Except.ok outputPath => { j with status := JStatus.done, output := some outputPath, error := none }
  | Except.error e => { j with status := JStatus.error, error := some e }

/-- Fold of lazy-timeout status reads over a list of read times. -/
def applyStatusReads (M : Nat) (reads : List Nat) (j : Job3) : Job3 :=
  reads.foldl (fun j now => statusTimeout M now j) j

/-- Whole lifecycle of one job in the third variant: creation, status
reads while processing, the single worker finish, status reads afterwards.
The worker body runs exactly once, mirroring the single setImmediate call
(server.js line 1199). -/
def runJob3 (M t0 : Nat) (reads1 : List Nat) (result : Except String String) (reads2 : List Nat) : Job3 :=
  applyStatusReads M reads2 (finishJob3 result (applyStatusReads M reads1 (newJob3 t0)))

/-- Invariant tying the registry fields of a third-variant job to its
status: a processing job has no output yet, a done job has an output and
no error, an errored job has an error and no output. -/
def Job3Inv (j : Job3) : Prop :=
  (j.status = JStatus.processing → j.output = none) ∧
  (j.status = JStatus.done → j.output.isSome ∧ j.error = none) ∧
  (j.status = JStatus.error → j.error.isSome ∧ j.output = none)

/-- Job record of the second server.js variant and part_002
(part_002 lines 655-660). -/
structure Job2 where
  status : JStatus
  outputPath : Option String
  error : Option String
  stage : String
deriving DecidableEq

/-- Fresh job record as inserted by the start handler
(part_002 lines 655-660). -/
def newJob2 : Job2 :=
  { status := JStatus.processing, outputPath := none, error := none, stage := "queued" }

/-- Tail of processJob in the second variant and part_002
(part_002 lines 599-610): success sets done with the output path, a thrown
error sets error with the message. -/
def finishJob2 (result : Except String String) (j : Job2) : Job2 :=
  match result with
  | Except.ok outMp4 => { j with status := JStatus.done, outputPath := some outMp4, stage := "done" }
  | Except.error e => { j with status := JStatus.error, error := some e, stage := "error" }

/-! ## Output-duration verification (claim C5) -/

/-- Result of the video render step: the output path together with the
duration ffprobe measures for the written file. -/
structure RenderOutcome where
  outPath : String
  measuredDur : ℚ
deriving DecidableEq

/-- Verify stage plus completion of the second processJob in server.js
(lines 815-821, identical in part_002 lines 595-602): the measured output
duration below 10 seconds throws, which the catch turns into an error
status; otherwise the job is marked done. -/
def verifyAndComplete (w : RenderOutcome) (j : Job2) : Job2 :=
  if w.measuredDur < 10 then
    { j with status := JStatus.error, error := some "Video duration too short", stage := "error" }
  else
    { j with status := JStatus.done, outputPath := some w.outPath, stage := "done" }

/-- Completion of the first processJob in server.js (lines 293-300): the
job is marked done directly after rendering; the measured duration of the
render outcome is never consulted and no verify stage exists. -/
def completeNoVerify (w : RenderOutcome) (j : Job2) : Job2 :=
  { j with status := JStatus.done, outputPath := some w.outPath, stage := "done" }

/-! ## Status and result routes of the third variant (claim C8) -/

/-- Status route (server.js lines 1208-1218): unknown id answers 404 and
stores nothing; otherwise the lazy timeout is applied in place and the
job is reported with code 200.  The first component is the registry entry
after the request. -/
def statusRoute3 (M now : Nat) (entry : Option Job3) : Option Job3 × Nat :=
  match entry with
  | none => (none, 404)
  | some st => (some (statusTimeout M now st), 200)

/-- Result route (server.js lines 1220-1230): unknown id answers 404; an
errored job answers 500; a job that is not done (or has no output) answers
425; a done job is streamed and its entry deleted afterwards. -/
def resultRoute3 (entry : Option Job3) : Option Job3 × Nat :=
  match entry with
  | none => (none, 404)
  | some st =>
    if st.status = JStatus.error then (some st, 500)
    else if st.status ≠ JStatus.done ∨ st.output = none then (some st, 425)
    else (none, 200)

/-! ## Start handlers (claim C9) -/

/-- Outcome of a start request: a rejection with an HTTP code, an accepted
registry with the new processing job, or a registry extended with a job
created directly in the error state. -/
inductive StartOutcome where
  | rejected (code : Nat)
  | accepted (reg : List (String × Job3))
  | errorJob (reg : List (String × Job3))
deriving DecidableEq

/-- Start handler of the third variant (server.js lines 1176-1206): it
first scans the registry and answers 429 whenever any job is processing;
then it validates the image and the plan field (400), registers an error
job when the plan does not parse (500), and otherwise inserts a fresh
processing job. -/
def start3 (reg : List (String × Job3)) (hasImage hasPlanField planParses : Bool)
    (jobId : String) (now : Nat) : StartOutcome :=
  if reg.any (fun e => e.2.status = JStatus.processing) then StartOutcome.rejected 429
  else if !hasImage then StartOutcome.rejected 400
  else if !hasPlanField then StartOutcome.rejected 400
  else if !planParses then
    StartOutcome.errorJob (reg ++ [(jobId,
      { status := JStatus.error, output := none, error := some "server error", createdAt := now })])
  else StartOutcome.accepted (reg ++ [(jobId, newJob3 now)])

/-- Start handler of the first variant (server.js lines 309-333): it never
reads the registry; missing files or plan answer 400, a plan parse failure
answers 500 without registering anything, and otherwise a fresh processing
job is inserted. -/
def start1 (reg : List (String × Job3)) (hasBg hasPlanField planParses : Bool)
    (jobId : String) (now : Nat) : StartOutcome :=
  if !hasBg || !hasPlanField then StartOutcome.rejected 400
  else if !planParses then StartOutcome.rejected 500
  else StartOutcome.accepted (reg ++ [(jobId, newJob3 now)])

/-! ## Download and synthesis calls (claims C6, C7) -/

/-- Shape of one fetch response: the ok flag and the HTTP status code. -/
structure FetchResponse where
  ok : Bool
  status : Nat
deriving DecidableEq

/-- downloadToFile (server.js lines 73-78, identical in part_002 lines
112-117): one single fetch of the URL; a non-ok response of any status,
429 included, throws immediately; there is no retry loop.  The argument
indexes the responses the backend would give to successive attempts, of
which the code performs exactly the first. -/
def downloadToFile (responses : Nat → FetchResponse) (url : String) : Except String Unit :=
  let res := responses 0
  if res.ok = false then
    Except.error ("Download failed " ++ toString res.status ++ ": " ++ url)
  else Except.ok ()

/-- Backend that is rate limited for three attempts and succeeds from the
fourth attempt on, the scenario named by claim C6. -/
def rateLimitedBackend : Nat → FetchResponse :=
  fun n => if n < 3 then { ok := false, status := 429 } else { ok := true, status := 200 }

/-- ttsTrToWav of part_002 (lines 239-280): one Google synthesis call; on
any thrown error, one single fallback call to the OpenAI client when it is
configured, otherwise the error propagates.  No attempt is repeated and no
backoff exists. -/
def ttsTrToWav (gcpResult : Except String String)
    (openaiClient : Option (Except String String)) : Except String String :=
  match gcpResult with
  | Except.ok audio => Except.ok audio
  | Except.error e =>
    match openaiClient with
    | none => Except.error e
    | some r => r

/-! ## Text chunking and empty-text policy (claim C7) -/

/-- Helper for the newline-run split: in the tail of a single-newline
split, the empty fields produced by consecutive newlines are dropped,
except for a trailing one, which a trailing newline run legitimately
produces. -/
def keepNonemptyExceptLast : List String → List String
  | [] => []
  | [x] => [x]
  | x :: y :: rest =>
    if x = "" then keepNonemptyExceptLast (y :: rest)
    else x :: keepNonemptyExceptLast (y :: rest)

/-- Split of a string at runs of one or more newlines, the behaviour of
the JavaScript split on the regex at server.js line 549: splitting at
every newline yields one empty field per extra newline of a run, which are
collapsed away except at the two boundaries. -/
def splitNewlineRuns (s : String) : List String :=
  match s.split (fun c => c = '\n') with
  | [] => []
  | x :: rest => x :: keepNonemptyExceptLast rest

/-- Whitespace test of the JavaScript trim for the characters occurring in
this corpus: space, tab, newline, carriage return. -/
def isWsChar (c : Char) : Bool :=
  c = ' ' || c = '\t' || c = '\n' || c = '\r'

/-- Trim of the JavaScript String.prototype.trim, defined structurally on
the character list so that it evaluates on concrete inputs. -/
def jsTrim (s : String) : String :=
  String.mk (((s.data.dropWhile isWsChar).reverse.dropWhile isWsChar).reverse)

/-- Loop body of chunkText (server.js lines 548-557): state is the list of
finished chunks and the chunk under construction. -/
def chunkStep (maxLen : Nat) (st : List String × String) (part : String) : List String × String :=
  let chunks := st.1
  let cur := st.2
  if maxLen < (jsTrim (cur ++ "\n" ++ part)).length then
    (if jsTrim cur ≠ "" then chunks ++ [jsTrim cur] else chunks, part)
  else
    (chunks, if cur ≠ "" then cur ++ "\n" ++ part else part)

/-- chunkText (server.js lines 542-559): trims the text, answers no chunk
for blank text, one chunk for short text, and otherwise packs the
newline-separated parts greedily up to maxLen characters. -/
def chunkText (text : String) (maxLen : Nat) : List String :=
  let s := jsTrim text
  if s = "" then []
  else if s.length ≤ maxLen then [s]
  else
    let st := (splitNewlineRuns s).foldl (chunkStep maxLen) ([], "")
    if jsTrim st.2 ≠ "" then st.1 ++ [jsTrim st.2] else st.1

/-- googleTtsToWav (server.js lines 561-606): chunks the text with limit
4500 and throws the error TTS text empty when no chunk remains; each chunk
is synthesized, a null audioContent throws, and the part list is merged.
The backend is abstracted as a function from a chunk to its optional audio
bytes. -/
def googleTtsToWav (synthesizeSpeech : String → Option String) (text : String) :
    Except String (List String) :=
  let parts := chunkText text 4500
  if parts.length = 0 then Except.error "TTS text empty"
  else
    parts.mapM (fun p =>
      match synthesizeSpeech p with
      | none => Except.error "Google TTS returned empty audioContent"
      | some a => Except.ok a)

/-- Input actually handed to espeak-ng by turkishTtsToMp3 (server.js
line 1019): the text itself when it is truthy and its trim is non-empty,
and a single space otherwise. -/
def espeakInput (text : String) : String :=
  if text ≠ "" ∧ (jsTrim text).length ≠ 0 then text else " "

/-! ## Zoom expressions of the compositors (claim C3)

The zoompan z expressions are functions of the output frame number on.
The two imagesPlusAudioToMp4 compositors use closed trigonometric
formulas; the runRender10MinJob path instead feeds the previous zoom value
back through min, a recurrence. -/

/-- Zoom expression of imagesPlusAudioToMp4 in the first server.js variant
(line 205): zoomMin 1.0, zoomMax 1.1, cosine over the frame count denom,
where denom is the zoom period in seconds times the frame rate
(line 183). -/
noncomputable def zExprV1 (denom n : Nat) : ℝ :=
  1.0 + (1.1 - 1.0) * (0.5 - 0.5 * Real.cos (2 * Real.pi * n / denom))

/-- Zoom expression of imagesPlusAudioToMp4 in part_002 (line 413): base
zoom 1.005, amplitude 0.004, sine over denom frames, clamped below at
1.0. -/
noncomputable def zExprP2 (denom n : Nat) : ℝ :=
  max 1.0 (1.005 + 0.004 * Real.sin (2 * Real.pi * n / denom))

/-- One zoompan step of the runRender10MinJob video command (server.js
line 1156): zoom grows by zoomSpeed 0.00025 and saturates at 1.15. -/
def renderZoomStep (zoom : ℚ) : ℚ :=
  min (zoom + 1/4000) (23/20)

/-- Zoom value over frames for the runRender10MinJob command: zoompan
starts at zoom 1 and applies the min recurrence every frame. -/
def renderZoom : Nat → ℚ
  | 0 => 1
  | n + 1 => renderZoomStep (renderZoom n)

/-! ## Pan offset expressions (claim C4) -/

/-- Truncation toward zero of a rational, the ffmpeg trunc function:
floor for nonnegative arguments, negated floor of the negation
otherwise. -/
def truncQ (q : ℚ) : ℤ :=
  if 0 ≤ q then ⌊q⌋ else -⌊-q⌋

/-- Pan x expression of imagesPlusAudioToMp4 in the first server.js
variant (line 206): trunc of a quarter of the slack, times two. -/
def xPanV1 (iw zoom : ℚ) : ℤ :=
  truncQ ((iw - iw / zoom) / 2 / 2) * 2

/-- Pan y expression of the same compositor (line 207). -/
def yPanV1 (ih zoom : ℚ) : ℤ :=
  truncQ ((ih - ih / zoom) / 2 / 2) * 2

/-- Pan x expression of imagesPlusAudioToMp4 in part_002 (line 414): a
bare trunc of the centering expression, with no rounding to even. -/
def xPanP2 (iw zoom : ℚ) : ℤ :=
  truncQ (iw / 2 - iw / zoom / 2)

/-- Pan y expression of the same compositor (part_002 line 415). -/
def yPanP2 (ih zoom : ℚ) : ℤ :=
  truncQ (ih / 2 - ih / zoom / 2)

/-! ## Total-duration fallback (claim C10) -/

/-- Parse step after ffprobe in the main variants (server.js lines 61-66):
a finite parsed number is kept, anything else becomes 0.  The argument is
none exactly when Number yields no finite value. -/
def ffprobeParseMain (v : Option ℚ) : ℚ :=
  match v with
  | some x => x
  | none => 0

/-- ffprobeDurationSec of part_000 (lines 61-67): the whole probe is
wrapped in try/catch, a subprocess failure (outer none) and an unusable
parse (inner none) both yield 0. -/
def ffprobeDurationSecP0 (result : Option (Option ℚ)) : ℚ :=
  match result with
  | none => 0
  | some v =>
    match v with
    | some x => x
    | none => 0

/-- Total duration used by imagesPlusAudioToMp4 in the main variants
(server.js line 177): max of 1 and the probed duration, with 60
substituted for a falsy probe. -/
def totalDurMain (dur : ℚ) : ℚ :=
  max 1 (if dur = 0 then 60 else dur)

/-- Total duration used by imagesPlusAudioToMp4 in part_000 (line 109):
max of 1 and the probed duration, without the 60 substitution. -/
def totalDurP0 (dur : ℚ) : ℚ :=
  max 1 dur

/-! ## Theorems -/

/-- Accumulator lemma for the segment loop: pushing through the loop
appends exactly the filtered pairs, in plan order. -/
theorem pushSegmentClips_eq (segs : List Segment) (wavs : List Clip) :
    pushSegmentClips segs wavs = wavs ++ (segs.map segmentPairAmended).flatten := by
  induction segs generalizing wavs with
  | nil => simp [pushSegmentClips]
  | cons s rest ih =>
    by_cases h : (truthy s.arabicAudioUrl && truthy s.trText) = true
    · simp [pushSegmentClips, h, ih, segmentPairAmended, List.append_assoc]
    · simp [pushSegmentClips, h, ih, segmentPairAmended]

/-- C1 (corrected): the clip list assembled by processJob is exactly
intro (if present), announcement (if present), bismillah clip (if enabled
and a URL is present), then for each plan segment in order its external
clip immediately followed by its narration clip, then outro (if present);
a segment is kept only when BOTH its external-audio URL and its narration
text are non-empty, and a segment lacking either is omitted entirely
without an error. -/
theorem c1_segment_assembly_order (plan : Plan) :
    processJobClips plan = manifestAmended plan := by
  simp only [processJobClips, manifestAmended, pushSegmentClips_eq]
  split_ifs <;> simp [List.append_assoc]

/-- C1 counterexample: for the plan whose single segment has an external
URL but empty narration text, the claim predicts the pair is present while
the code assembles an empty manifest. -/
theorem c1_counterexample :
    processJobClips planC1 = [] ∧ manifestClaim planC1 ≠ processJobClips planC1 := by
  exact ⟨rfl, by decide⟩

/-- C4 (corrected): in imagesPlusAudioToMp4 of the first server.js variant
the pan offsets are trunc times two, hence even for every width and zoom;
the part_002 variant only truncates, so its offsets are merely integers. -/
theorem c4_pan_offsets_even (iw ih zoom : ℚ) :
    2 ∣ xPanV1 iw zoom ∧ 2 ∣ yPanV1 ih zoom := by
  unfold xPanV1 yPanV1
  exact ⟨dvd_mul_left 2 _, dvd_mul_left 2 _⟩

/-- C4 counterexample: at the overscanned width 1434 and zoom 1.005, a
value the part_002 zoom expression attains at frame 0 and which lies in
the configured zoom range, the part_002 pan x offset is 3, an odd pixel
coordinate. -/
theorem c4_counterexample :
    (1 ≤ (201/200 : ℚ) ∧ (201/200 : ℚ) ≤ 1009/1000) ∧
    xPanP2 1434 (201/200) = 3 ∧ ¬ (2 : ℤ) ∣ xPanP2 1434 (201/200) := by
  have harg : ((1434 : ℚ)/2 - 1434/((201 : ℚ)/200)/2) = 239/67 := by norm_num
  have h1 : xPanP2 1434 (201/200) = 3 := by
    unfold xPanP2 truncQ
    rw [harg, if_pos (by norm_num : (0 : ℚ) ≤ 239/67)]
    norm_num
  refine ⟨by norm_num, h1, ?_⟩
  rw [h1]
  decide

/-- C10 (confirmed): the total duration driving the filter graph is the
max of 1 and the probed duration, with 60 substituted for a falsy probe in
the main variants; an unusable parse yields 0, so composition proceeds
with a positive total of at least one second in every variant. -/
theorem c10_duration_fallback :
    (∀ d : ℚ, 1 ≤ totalDurMain d ∧ 1 ≤ totalDurP0 d) ∧
    ffprobeParseMain none = 0 ∧ totalDurMain 0 = 60 ∧
    ffprobeDurationSecP0 none = 0 ∧ totalDurP0 0 = 1 := by
  refine ⟨fun d => ⟨le_max_left 1 _, le_max_left 1 _⟩, rfl, ?_, rfl, ?_⟩
  · norm_num [totalDurMain]
  · norm_num [totalDurP0]

/-- Preservation of the registry invariant by one lazy-timeout read. -/
theorem statusTimeout_inv (M now : Nat) {j : Job3} (h : Job3Inv j) :
    Job3Inv (statusTimeout M now j) := by
  obtain ⟨h1, h2, h3⟩ := h
  unfold Job3Inv statusTimeout
  split
  case isTrue hc =>
    refine ⟨fun hs => absurd hs (by simp), fun hs => absurd hs (by simp),
            fun _ => ⟨rfl, h1 hc.1⟩⟩
  case isFalse hc => exact ⟨h1, h2, h3⟩

/-- Preservation of the registry invariant by any sequence of status
reads. -/
theorem applyStatusReads_inv (M : Nat) (reads : List Nat) {j : Job3} (h : Job3Inv j) :
    Job3Inv (applyStatusReads M reads j) := by
  induction reads generalizing j with
  | nil => exact h
  | cons r rs ih =>
    have hr : applyStatusReads M (r :: rs) j = applyStatusReads M rs (statusTimeout M r j) := rfl
    rw [hr]
    exact ih (statusTimeout_inv M r h)

/-- Lazy-timeout reads never produce a done status. -/
theorem statusTimeout_ne_done (M now : Nat) {j : Job3} (h : j.status ≠ JStatus.done) :
    (statusTimeout M now j).status ≠ JStatus.done := by
  unfold statusTimeout
  split
  · simp
  · exact h

/-- Sequences of status reads never produce a done status. -/
theorem applyStatusReads_ne_done (M : Nat) (reads : List Nat) {j : Job3}
    (h : j.status ≠ JStatus.done) : (applyStatusReads M reads j).status ≠ JStatus.done := by
  induction reads generalizing j with
  | nil => exact h
  | cons r rs ih =>
    have hr : applyStatusReads M (r :: rs) j = applyStatusReads M rs (statusTimeout M r j) := rfl
    rw [hr]
    exact ih (statusTimeout_ne_done M r h)

/-- The worker finish establishes the registry invariant from any
not-yet-done state satisfying it. -/
theorem finishJob3_inv {j : Job3} (res : Except String String) (h : Job3Inv j)
    (hnd : j.status ≠ JStatus.done) : Job3Inv (finishJob3 res j) := by
  obtain ⟨h1, _, h3⟩ := h
  unfold Job3Inv finishJob3
  cases res with
  | ok p =>
    refine ⟨fun hs => absurd hs (by simp), fun _ => ⟨rfl, rfl⟩,
            fun hs => absurd hs (by simp)⟩
  | error e =>
    refine ⟨fun hs => absurd hs (by simp), fun hs => absurd hs (by simp),
            fun _ => ⟨rfl, ?_⟩⟩
    cases hj : j.status with
    | processing => exact h1 hj
    | done => exact absurd hj hnd
    | error => exact (h3 hj).2

/-- C2 (confirmed): over the whole lifecycle of a job in the third
variant (creation, lazy-timeout status reads, the single worker finish,
further reads) and for the finish of the part_002 variant, a job that has
left processing has exactly one of its output and its error set: done
implies output set and error clear, error implies error set and output
clear. -/
theorem c2_terminal_exclusivity (M t0 : Nat) (r1 r2 : List Nat)
    (res res2 : Except String String) :
    ((runJob3 M t0 r1 res r2).status = JStatus.done →
      (runJob3 M t0 r1 res r2).output.isSome ∧ (runJob3 M t0 r1 res r2).error = none) ∧
    ((runJob3 M t0 r1 res r2).status = JStatus.error →
      (runJob3 M t0 r1 res r2).error.isSome ∧ (runJob3 M t0 r1 res r2).output = none) ∧
    ((finishJob2 res2 newJob2).status = JStatus.done →
      (finishJob2 res2 newJob2).outputPath.isSome ∧ (finishJob2 res2 newJob2).error = none) ∧
    ((finishJob2 res2 newJob2).status = JStatus.error →
      (finishJob2 res2 newJob2).error.isSome ∧ (finishJob2 res2 newJob2).outputPath = none) := by
  have hnew : Job3Inv (newJob3 t0) := by
    unfold Job3Inv newJob3
    exact ⟨fun _ => rfl, fun hs => absurd hs (by simp), fun hs => absurd hs (by simp)⟩
  have hpre : Job3Inv (applyStatusReads M r1 (newJob3 t0)) := applyStatusReads_inv M r1 hnew
  have hnd : (applyStatusReads M r1 (newJob3 t0)).status ≠ JStatus.done :=
    applyStatusReads_ne_done M r1 (by simp [newJob3])
  have hfin : Job3Inv (finishJob3 res (applyStatusReads M r1 (newJob3 t0))) :=
    finishJob3_inv res hpre hnd
  have hall : Job3Inv (runJob3 M t0 r1 res r2) := applyStatusReads_inv M r2 hfin
  refine ⟨hall.2.1, hall.2.2, ?_, ?_⟩ <;> cases res2 <;> simp [finishJob2, newJob2]

/-- C2 witness: a successful third-variant job read after an overdue
timestamp is done with an output; a failed part_002 job carries its
error. -/
theorem c2_witness :
    (runJob3 2700000 0 [] (Except.ok "out.mp4") [9000000]).output.isSome ∧
    (finishJob2 (Except.error "boom") newJob2).error.isSome :=
  ⟨((c2_terminal_exclusivity 2700000 0 [] [9000000]
      (Except.ok "out.mp4") (Except.error "boom")).1 (by decide)).1,
   (((c2_terminal_exclusivity 2700000 0 [] [9000000]
      (Except.ok "out.mp4") (Except.error "boom")).2.2.2) (by decide)).1⟩

/-- C5 (corrected): the verify stage of the second server.js processJob
(and part_002) marks the job done exactly when the measured output
duration is at least 10 seconds and otherwise transitions it to error with
a recorded message, although no subprocess failed; the first server.js
processJob has no verify stage and marks done without consulting the
measured duration. -/
theorem c5_duration_sanity_floor (w : RenderOutcome) (j : Job2) :
    ((verifyAndComplete w j).status = JStatus.done ↔ 10 ≤ w.measuredDur) ∧
    ((verifyAndComplete w j).status = JStatus.error ↔ w.measuredDur < 10) ∧
    (w.measuredDur < 10 →
      (verifyAndComplete w j).error.isSome ∧ (verifyAndComplete w j).outputPath = j.outputPath) := by
  unfold verifyAndComplete
  rcases lt_or_le w.measuredDur 10 with h | h
  · rw [if_pos h]
    refine ⟨?_, ?_, fun _ => ⟨rfl, rfl⟩⟩
    · simp [not_le.mpr h]
    · simp [h]
  · rw [if_neg (not_lt.mpr h)]
    refine ⟨?_, ?_, fun hlt => absurd hlt (not_lt.mpr h)⟩
    · simp [h]
    · simp [not_lt.mpr h]

/-- C5 witness: a measured duration of 3 seconds drives the verifying
variant into the error state with a recorded message. -/
theorem c5_witness :
    (verifyAndComplete { outPath := "o.mp4", measuredDur := 3 } newJob2).error.isSome :=
  ((c5_duration_sanity_floor { outPath := "o.mp4", measuredDur := 3 } newJob2).2.2
    (by norm_num)).1

/-- C5 counterexample: the first server.js processJob marks a job done
although the rendered output measures 5 seconds, below the sanity floor of
the claim. -/
theorem c5_counterexample :
    (completeNoVerify { outPath := "output.mp4", measuredDur := 5 } newJob2).status =
      JStatus.done ∧
    ({ outPath := "output.mp4", measuredDur := 5 } : RenderOutcome).measuredDur < 10 :=
  ⟨rfl, by norm_num⟩

/-- C6 (corrected): no rate-limit retry exists anywhere in the corpus:
downloadToFile performs exactly one fetch, so its outcome is a function of
the first response alone, and any non-ok response, 429 included, is an
immediate error that is fatal to the owning job; ttsTrToWav makes one
Google call and on any failure at most one OpenAI fallback call, with no
backoff and no repeat. -/
theorem c6_no_rate_limit_retry :
    (∀ (f g : Nat → FetchResponse) (url : String), f 0 = g 0 →
      downloadToFile f url = downloadToFile g url) ∧
    (∀ (f : Nat → FetchResponse) (url : String), (f 0).ok = false →
      downloadToFile f url =
        Except.error ("Download failed " ++ toString (f 0).status ++ ": " ++ url)) ∧
    (∀ (a : String) (o : Option (Except String String)),
      ttsTrToWav (Except.ok a) o = Except.ok a) ∧
    (∀ (e : String) (r : Except String String),
      ttsTrToWav (Except.error e) (some r) = r) ∧
    (∀ e : String, ttsTrToWav (Except.error e) none = Except.error e) := by
  refine ⟨?_, ?_, fun a o => rfl, fun e r => rfl, fun e => rfl⟩
  · intro f g url h
    unfold downloadToFile
    rw [h]
  · intro f url h
    simp [downloadToFile, h]

/-- C6 witness: a backend whose first response is a plain 500 failure
makes the single download attempt fail with the recorded status, and the
outcome agrees with any backend sharing that first response. -/
theorem c6_witness :
    downloadToFile (fun _ => { ok := false, status := 500 }) "u" =
      downloadToFile (fun n => { ok := false, status := 500 + 0 * n }) "u" ∧
    downloadToFile (fun _ => { ok := false, status := 500 }) "u" =
      Except.error ("Download failed " ++ toString (500 : Nat) ++ ": " ++ "u") :=
  ⟨c6_no_rate_limit_retry.1 (fun _ => { ok := false, status := 500 })
      (fun n => { ok := false, status := 500 + 0 * n }) "u" rfl,
   c6_no_rate_limit_retry.2.1 (fun _ => { ok := false, status := 500 }) "u" rfl⟩

/-- C6 counterexample: a backend answering 429 on the first three attempts
and succeeding from the fourth fails the very first download, and that
error drives the owning job to the error state instead of completion. -/
theorem c6_counterexample :
    downloadToFile rateLimitedBackend "https://audio.example/a.mp3" =
      Except.error "Download failed 429: https://audio.example/a.mp3" ∧
    (finishJob2 (Except.error "Download failed 429: https://audio.example/a.mp3")
      newJob2).status = JStatus.error :=
  ⟨rfl, rfl⟩

/-- C7 (corrected): only the espeak-based turkishTtsToMp3 substitutes a
single-space placeholder, so its synthesis input is never empty; the
googleTtsToWav synthesizer instead rejects empty or whitespace-only text
with the error TTS text empty, whatever the backend would answer. -/
theorem c7_tts_empty_text_policy :
    (∀ t : String, espeakInput t ≠ "") ∧
    (∀ t : String, jsTrim t = "" → espeakInput t = " ") ∧
    (∀ (synth : String → Option String) (t : String), jsTrim t = "" →
      googleTtsToWav synth t = Except.error "TTS text empty") := by
  refine ⟨?_, ?_, ?_⟩
  · intro t
    unfold espeakInput
    split
    case isTrue h => exact h.1
    case isFalse => decide
  · intro t h
    have hc : ¬(t ≠ "" ∧ (jsTrim t).length ≠ 0) := fun hc => hc.2 (by rw [h]; rfl)
    simp only [espeakInput, if_neg hc]
  · intro synth t h
    simp [googleTtsToWav, chunkText, h]

/-- C7 witness: the whitespace-only text of one space is replaced by the
placeholder for espeak and rejected by the Google path. -/
theorem c7_witness :
    espeakInput " " = " " ∧
    googleTtsToWav (fun _ => some "a") " " = Except.error "TTS text empty" :=
  ⟨c7_tts_empty_text_policy.2.1 " " rfl,
   c7_tts_empty_text_policy.2.2 (fun _ => some "a") " " rfl⟩

/-- C7 counterexample: with a backend that succeeds on every chunk,
googleTtsToWav still fails on whitespace-only input, refuting that
synthesis never fails for such text. -/
theorem c7_counterexample :
    googleTtsToWav (fun _ => some "audio-bytes") "   " = Except.error "TTS text empty" := rfl

/-- C8 (corrected): queries for an unknown id answer 404 on both routes
without creating an entry; a result query for a job that is not done
answers an error code and leaves the entry unchanged; a status query
leaves the entry unchanged except for the lazy timeout, which transitions
a processing job older than MAX_JOB_MS to the error state. -/
theorem c8_query_effects :
    (∀ M now : Nat, statusRoute3 M now none = (none, 404)) ∧
    resultRoute3 none = (none, 404) ∧
    (∀ st : Job3, st.status ≠ JStatus.done →
      (resultRoute3 (some st)).1 = some st ∧ (resultRoute3 (some st)).2 ≠ 200) ∧
    (∀ (M now : Nat) (st : Job3), ¬(st.status = JStatus.processing ∧ M < now - st.createdAt) →
      statusRoute3 M now (some st) = (some st, 200)) := by
  refine ⟨fun M now => rfl, rfl, ?_, ?_⟩
  · intro st h
    cases hstat : st.status with
    | processing => simp [resultRoute3, hstat]
    | done => exact absurd hstat h
    | error => simp [resultRoute3, hstat]
  · intro M now st h
    simp [statusRoute3, statusTimeout, h]

/-- C8 witness: on a fresh processing job that is not overdue, the result
route keeps the entry and the status route answers without mutation. -/
theorem c8_witness :
    (resultRoute3 (some (newJob3 0))).1 = some (newJob3 0) ∧
    statusRoute3 2700000 5 (some (newJob3 0)) = (some (newJob3 0), 200) :=
  ⟨(c8_query_effects.2.2.1 (newJob3 0) (by decide)).1,
   c8_query_effects.2.2.2 2700000 5 (newJob3 0) (by decide)⟩

/-- C8 counterexample: a status query for a processing job created at time
0 and read past the 45-minute ceiling rewrites the stored job, so the
registry state differs before and after the query. -/
theorem c8_counterexample :
    (statusRoute3 2700000 2700001 (some (newJob3 0))).1 ≠ some (newJob3 0) := by
  decide

/-- C9 (corrected): the first start handler inserts a fresh processing job
for every registry state, never consulting other jobs; the third start
handler accepts a well-formed submission exactly when no registered job is
processing, and otherwise answers 429. -/
theorem c9_submission_acceptance :
    (∀ (reg : List (String × Job3)) (jobId : String) (now : Nat),
      start1 reg true true true jobId now =
        StartOutcome.accepted (reg ++ [(jobId, newJob3 now)])) ∧
    (∀ (reg : List (String × Job3)) (jobId : String) (now : Nat),
      (reg.any (fun e => e.2.status = JStatus.processing)) = false →
      start3 reg true true true jobId now =
        StartOutcome.accepted (reg ++ [(jobId, newJob3 now)])) := by
  refine ⟨fun reg jobId now => rfl, fun reg jobId now h => ?_⟩
  simp [start3, h]

/-- C9 witness: an empty registry accepts a submission in the third
variant and registers the new processing job. -/
theorem c9_witness :
    start3 [] true true true "job1" 0 = StartOutcome.accepted [("job1", newJob3 0)] :=
  c9_submission_acceptance.2 [] "job1" 0 rfl

/-- C9 counterexample: with one processing job registered, a well-formed
submission to the third start handler is refused with 429 and no job is
created, refuting that submissions are never refused for this reason. -/
theorem c9_counterexample :
    start3 [("a", newJob3 0)] true true true "b" 1 = StartOutcome.rejected 429 := rfl

/-- Closed form of the runRender10MinJob zoompan recurrence: the zoom
grows linearly by 1/4000 per frame until it saturates at 23/20. -/
theorem renderZoom_closedForm (n : Nat) :
    renderZoom n = min (1 + (n : ℚ) / 4000) (23/20) := by
  induction n with
  | zero =>
    simp [renderZoom]
    norm_num [min_def]
  | succ n ih =>
    have hz : renderZoom (n + 1) = renderZoomStep (renderZoom n) := rfl
    rw [hz, renderZoomStep, ih]
    rcases le_total (1 + (n : ℚ) / 4000) (23/20) with h | h
    · rw [min_eq_left h]
      congr 1
      push_cast
      ring
    · rw [min_eq_right h]
      rw [min_eq_right (by linarith : (23/20 : ℚ) ≤ 23/20 + 1/4000)]
      have hcast : ((n + 1 : Nat) : ℚ) = (n : ℚ) + 1 := by push_cast; ring
      rw [hcast, min_eq_right (by linarith : (23/20 : ℚ) ≤ 1 + ((n : ℚ) + 1) / 4000)]

/-- C3 (corrected): the zoom functions of both imagesPlusAudioToMp4
compositors are periodic in the frame index with equal values at frame 0
and at frame denom (the zoom period in seconds times the frame rate) and
stay within their configured bounds, 1.0 to 1.1 for the first variant and
1.001 to 1.009 for the part_002 variant; the runRender10MinJob video
command instead uses a monotonic zoompan recurrence whose value never
returns to its frame-0 value. -/
theorem c3_zoom_periodic_bounded (d n : Nat) (hd : d ≠ 0) :
    (zExprV1 d 0 = zExprV1 d d ∧ 1 ≤ zExprV1 d n ∧ zExprV1 d n ≤ 1.1) ∧
    (zExprP2 d 0 = zExprP2 d d ∧ 1.001 ≤ zExprP2 d n ∧ zExprP2 d n ≤ 1.009) ∧
    (∀ p : Nat, 1 ≤ p → renderZoom 0 ≠ renderZoom p) := by
  have hd2 : (d : ℝ) ≠ 0 := Nat.cast_ne_zero.mpr hd
  have harg : 2 * Real.pi * (d : ℝ) / (d : ℝ) = 2 * Real.pi := by
    field_simp
  have hcos1 := Real.cos_le_one (2 * Real.pi * (n : ℝ) / (d : ℝ))
  have hcos2 := Real.neg_one_le_cos (2 * Real.pi * (n : ℝ) / (d : ℝ))
  have hsin1 := Real.sin_le_one (2 * Real.pi * (n : ℝ) / (d : ℝ))
  have hsin2 := Real.neg_one_le_sin (2 * Real.pi * (n : ℝ) / (d : ℝ))
  refine ⟨⟨?_, ?_, ?_⟩, ⟨?_, ?_, ?_⟩, ?_⟩
  · unfold zExprV1
    rw [Nat.cast_zero, harg, Real.cos_two_pi]
    norm_num [Real.cos_zero]
  · unfold zExprV1
    nlinarith [hcos1]
  · unfold zExprV1
    nlinarith [hcos2]
  · unfold zExprP2
    rw [Nat.cast_zero, harg, Real.sin_two_pi]
    norm_num [Real.sin_zero]
  · unfold zExprP2
    have hlow : (1.001 : ℝ) ≤ 1.005 + 0.004 * Real.sin (2 * Real.pi * (n : ℝ) / (d : ℝ)) := by
      nlinarith [hsin2]
    exact le_trans hlow (le_max_right _ _)
  · unfold zExprP2
    apply max_le
    · norm_num
    · nlinarith [hsin1]
  · intro p hp
    have h0 : renderZoom 0 = 1 := rfl
    have hlt : (1 : ℚ) < renderZoom p := by
      rw [renderZoom_closedForm p]
      apply lt_min
      · have hp2 : (1 : ℚ) ≤ (p : ℚ) := by exact_mod_cast hp
        linarith
      · norm_num
    rw [h0]
    exact ne_of_lt hlt

/-- C3 witness: at the default 30 fps and 15 second period of the first
variant, denom is 450 and the zoom value at frame 450 equals the value at
frame 0; the runRender10MinJob zoom has already left its frame-0 value at
frame 1. -/
theorem c3_witness :
    zExprV1 450 0 = zExprV1 450 450 ∧ renderZoom 0 ≠ renderZoom 1 :=
  ⟨((c3_zoom_periodic_bounded 450 0 (by norm_num)).1).1,
   ((c3_zoom_periodic_bounded 450 0 (by norm_num)).2.2) 1 (le_refl 1)⟩

/-- C3 counterexample: the runRender10MinJob zoom function saturates at
its maximum 23/20 from frame 600 on and never again equals its frame-0
value, so it is a monotonic saturating zoom and not a periodic one as the
claim states for every compositor it cites. -/
theorem c3_counterexample :
    renderZoom 600 = 23/20 ∧ renderZoom 601 = renderZoom 600 ∧
    renderZoom 0 ≠ renderZoom 600 := by
  have h0 : renderZoom 0 = 1 := rfl
  have h600 : renderZoom 600 = 23/20 := by
    rw [renderZoom_closedForm 600]
    norm_num
  have h601 : renderZoom 601 = 23/20 := by
    rw [renderZoom_closedForm 601]
    rw [min_eq_right (by norm_num : (23/20 : ℚ) ≤ 1 + ((601 : Nat) : ℚ) / 4000)]
  refine ⟨h600, by rw [h600, h601], by rw [h0, h600]; norm_num⟩
